import Mathlib

/-!
Verification of the MinerU-fork admission-and-task-lifecycle subsystem
(`src/runpod_api/server.py`, with the result-path resolver also present in
`src/hf_space/app.py`) against its natural-language specification.

The Python source is shallowly embedded: the in-memory task store becomes an
association list keyed by task id, `asyncio.Semaphore` becomes a permit
counter, handlers become trace-producing functions, and the opaque external
parser call becomes an outcome parameter.  Timestamps are integers, file
payloads are represented by their byte length, and `float` progress values
are embedded as exact rationals (the source only ever stores the literals
0.0, 0.1, 0.3, 1.0).
-/

/-- `MAX_FILE_SIZE = int(os.getenv("MINERU_MAX_FILE_SIZE_MB", "100")) * 1024 * 1024`
with the default configuration (server.py line 60). -/
def MAX_FILE_SIZE : Nat := 100 * 1024 * 1024

/-- `TaskStatus` enum (server.py lines 78-84). -/
inductive TaskStatus where
  | pending
  | processing
  | completed
  | failed
deriving DecidableEq, Repr

/-- `ParseResponse` model (server.py lines 109-119): the structured result a
completed parse stores into the task record.  `content_list` and `images`
are JSON-like blobs; their exact shape is irrelevant to every claim, so they
are embedded as optional strings. -/
structure ParseResponse where
  status : String
  markdown : Option String
  elapsed_ms : Int
  page_count : Nat
  backend : String
  version : String
  content_list : Option String
deriving DecidableEq, Repr

/-- A task record, mirroring the dict built by `TaskStore.create`
(server.py lines 179-187). -/
structure TaskRecord where
  status : TaskStatus
  progress : Rat
  result : Option ParseResponse
  error : Option String
  created_at : Int
  updated_at : Int
deriving DecidableEq, Repr

/-- The `**kwargs` of a `TaskStore.update` call: each field is `some v` when
the keyword was passed and `none` when it was not.  The source only ever
passes the keywords `status`, `progress`, `result`, `error`. -/
structure TaskUpdate where
  status : Option TaskStatus := none
  progress : Option Rat := none
  result : Option ParseResponse := none
  error : Option String := none
deriving DecidableEq, Repr

/-- The `TaskStore._tasks` dict as an association list keyed by task id. -/
abbrev Store := List (String × TaskRecord)

/-- `self._tasks.get(task_id)` (server.py lines 199-202). -/
def Store.lookup? (s : Store) (task_id : String) : Option TaskRecord :=
  (s.find? (fun p => p.1 = task_id)).map (fun p => p.2)

/-- `self._tasks[task_id].update(kwargs); self._tasks[task_id]["updated_at"] = now`
(server.py lines 194-195): merge the passed keywords into the record and bump
`updated_at`.  `created_at` is never a keyword, so it is preserved. -/
def applyUpdate (t : TaskRecord) (u : TaskUpdate) (now : Int) : TaskRecord :=
  { status := match u.status with | some v => v | none => t.status
    progress := match u.progress with | some v => v | none => t.progress
    result := match u.result with | some v => some v | none => t.result
    error := match u.error with | some v => some v | none => t.error
    created_at := t.created_at
    updated_at := now }

/-- `TaskStore.create` (server.py lines 175-188): insert a fresh Pending
record with progress 0, no result, no error, both timestamps `now`.  Dict
assignment overwrites, hence the filter on the old key. -/
def TaskStore.create (s : Store) (task_id : String) (now : Int) : TaskRecord × Store :=
  let t : TaskRecord :=
    { status := .pending, progress := 0, result := none, error := none
      created_at := now, updated_at := now }
  (t, (task_id, t) :: s.filter (fun p => p.1 ≠ task_id))

/-- `TaskStore.update` (server.py lines 190-197): if the id is present, merge
the keywords and bump `updated_at`, returning the updated record; otherwise
return `None` and touch nothing. -/
def TaskStore.update (s : Store) (task_id : String) (u : TaskUpdate) (now : Int) :
    Option TaskRecord × Store :=
  match s.find? (fun p => p.1 = task_id) with
  | some pt =>
      let t' := applyUpdate pt.2 u now
      (some t', s.map (fun p => if p.1 = task_id then (p.1, t') else p))
  | none => (none, s)

/-- The expiry test of `TaskStore.cleanup_expired` (server.py line 211):
`now - created > timedelta(hours=TASK_EXPIRE_HOURS)`, with times and the TTL
both in the same integer unit. -/
def taskExpired (now ttl : Int) (p : String × TaskRecord) : Bool :=
  ttl < now - p.2.created_at

/-- `TaskStore.cleanup_expired` (server.py lines 204-215): collect every id
whose record's age strictly exceeds the TTL, delete exactly those, and return
the count deleted.  On a keyed map the collect-then-delete loop of the source
is the partition by the expiry test. -/
def TaskStore.cleanup_expired (s : Store) (now ttl : Int) : Store × Nat :=
  let expired := s.filter (taskExpired now ttl)
  (s.filter (fun p => ! taskExpired now ttl p), expired.length)

/-- `os.path.join` for one already-relative component, as used at every call
site embedded here. -/
def osJoin (a b : String) : String := a ++ "/" ++ b

/-- Python `s.startswith(pre)`. -/
def pyStartsWith (s pre : String) : Bool := pre.data.isPrefixOf s.data

/-- The result-path resolver (server.py lines 433-439; the same mapping with
`parse_method = "auto"` appears in hf_space/app.py lines 214-220):
`pipeline` resolves to `{root}/{stem}/{parse_method}`, any backend starting
with `vlm` to `{root}/{stem}/vlm`, everything else to
`{root}/{stem}/hybrid_{parse_method}`. -/
def result_dir (backend parse_method pdf_name output_path : String) : String :=
  if backend = "pipeline" then
    osJoin (osJoin output_path pdf_name) parse_method
  else if pyStartsWith backend "vlm" then
    osJoin (osJoin output_path pdf_name) "vlm"
  else
    osJoin (osJoin output_path pdf_name) ("hybrid_" ++ parse_method)

/-- `asyncio.Semaphore(MAX_CONCURRENT)` (server.py line 261) as a permit
counter: `capacity` is `MAX_CONCURRENT`, `held` the number of outstanding
permits. -/
structure Gate where
  capacity : Nat
  held : Nat
deriving DecidableEq, Repr

/-- `Semaphore.locked()`: the internal value `capacity - held` is zero. -/
def Gate.locked (g : Gate) : Bool := g.capacity ≤ g.held

/-- A successful `Semaphore.acquire()` (entering `async with _semaphore`). -/
def Gate.acquire (g : Gate) : Gate := { g with held := g.held + 1 }

/-- `Semaphore.release()` (leaving `async with _semaphore`). -/
def Gate.release (g : Gate) : Gate := { g with held := g.held - 1 }

/-- Outcome of the awaits inside `background_parse`'s try-block that the
model cannot compute: the semaphore acquisition can raise before a permit is
reserved (e.g. cancellation), and `process_file_bytes` — dominated by the
opaque external `aio_do_parse` call — either returns a response or raises. -/
inductive ParseOutcome where
  | ok : ParseResponse → ParseOutcome
  | acquireFail : String → ParseOutcome
  | parseFail : String → ParseOutcome
deriving DecidableEq, Repr

/-- The try-block of `background_parse` (server.py lines 693-702):
`async with _semaphore:` then the 0.3 progress update, the parse, and on
success the Completed update.  Returns `none` (no exception) or `some msg`
(the raised message), together with the store and the gate after the
`async with` has unwound — the permit, when one was reserved, is released
before the except clause runs. -/
def background_try (g : Gate) (s1 : Store) (task_id : String) (outcome : ParseOutcome)
    (t2 t3 : Int) : Option String × Store × Gate :=
  match outcome with
  | .acquireFail msg => (some msg, s1, g)
  | .parseFail msg =>
      let g1 := g.acquire
      let s2 := (TaskStore.update s1 task_id { progress := some (0.3 : Rat) } t2).2
      (some msg, s2, g1.release)
  | .ok r =>
      let g1 := g.acquire
      let s2 := (TaskStore.update s1 task_id { progress := some (0.3 : Rat) } t2).2
      let s3 := (TaskStore.update s2 task_id
        { status := some .completed, progress := some (1 : Rat), result := some r } t3).2
      (none, s3, g1.release)

/-- `background_parse` (server.py lines 684-709): the Processing/0.1 update,
then the try-block; any exception from the try-block is caught and converted
into the Failed update.  The codomain is `Except`: an `.error` would mean the
function itself raised. -/
def background_parse (g : Gate) (s : Store) (task_id : String) (outcome : ParseOutcome)
    (t1 t2 t3 t4 : Int) : Except String (Store × Gate) :=
  let s1 := (TaskStore.update s task_id
    { status := some .processing, progress := some (0.1 : Rat) } t1).2
  match background_try g s1 task_id outcome t2 t3 with
  | (none, s3, g') => .ok (s3, g')
  | (some msg, s2, g') =>
      let s4 := (TaskStore.update s2 task_id
        { status := some .failed, error := some msg } t4).2
      .ok (s4, g')

/-- A store operation as performed by the router or the background job. -/
inductive StoreOp where
  | create : StoreOp
  | update : TaskUpdate → StoreOp
deriving Repr

/-- Apply one store operation for the given task id at the given time. -/
def applyOp (task_id : String) (now : Int) (s : Store) : StoreOp → Store
  | .create => (TaskStore.create s task_id now).2
  | .update u => (TaskStore.update s task_id u now).2

/-- The complete sequence of store operations a task undergoes, in program
order: the `create` in `parse_async` (server.py line 658) followed by the
updates of `background_parse` (lines 691-709), one branch per outcome of the
try-block.  This is the op-level view of `background_parse` above. -/
def asyncTaskOps (outcome : ParseOutcome) : List StoreOp :=
  .create ::
  .update { status := some .processing, progress := some (0.1 : Rat) } ::
  match outcome with
  | .acquireFail msg =>
      [.update { status := some .failed, error := some msg }]
  | .parseFail msg =>
      [.update { progress := some (0.3 : Rat) },
       .update { status := some .failed, error := some msg }]
  | .ok r =>
      [.update { progress := some (0.3 : Rat) },
       .update { status := some .completed, progress := some (1 : Rat), result := some r }]

/-- All intermediate store states (the initial one included) of running a
list of store operations, the i-th operation stamped with `time i`. -/
def opStates (task_id : String) (time : Nat → Int) : Nat → Store → List StoreOp → List Store
  | _, s, [] => [s]
  | i, s, op :: ops => s :: opStates task_id time (i + 1) (applyOp task_id (time i) s op) ops

/-- One observable status change allowed by the claimed forward path:
either no change, or Pending → Processing, or Processing → a terminal
status.  Completed and Failed relate only to themselves, so a chain in this
relation never leaves a terminal status. -/
def statusStep (a b : TaskStatus) : Prop :=
  a = b ∨ (a = .pending ∧ b = .processing) ∨
    (a = .processing ∧ (b = .completed ∨ b = .failed))

/-- The result/error invariant claimed for task records: the two fields are
never both present, and both are absent unless the status is terminal. -/
def recordInv (t : TaskRecord) : Prop :=
  (t.result = none ∨ t.error = none) ∧
  ((t.status = .pending ∨ t.status = .processing) → t.result = none ∧ t.error = none)

/-- An uploaded file as the handlers see it: its byte length, and whether
`guess_suffix_by_bytes` puts its sniffed suffix in
`pdf_suffixes + image_suffixes` (server.py lines 389-390) — the suffix lists
live outside this repository, so the membership test is carried as a field. -/
structure UploadIn where
  size : Nat
  suffixSupported : Bool
deriving DecidableEq, Repr

/-- Observable steps of the synchronous `/parse` handler, in program order. -/
inductive SyncEvent where
  | probe : Bool → SyncEvent
  | acquirePermit : SyncEvent
  | readUpload : Nat → SyncEvent
  | typeCheck : Bool → SyncEvent
  | callExternal : SyncEvent
  | httpError : Nat → SyncEvent
  | releasePermit : SyncEvent
deriving DecidableEq, Repr

/-- `parse_file` (server.py lines 554-599) in its uncontended sequential
execution, inlining the parts of `process_file_bytes` it awaits (type check
line 389-391, the opaque parse, and the 500-wrapping of parse errors lines
474-476): probe `_semaphore.locked()` and reject 503 when full; otherwise
enter `async with _semaphore`, read the upload, reject 413 when oversized
(the permit is released while the exception unwinds the `async with`),
reject 400 on an unsupported sniffed type, else run the external parse.
When the probe sees a free slot but another coroutine takes it first, the
`async with` blocks instead — that interleaving is modelled by `SyncStep`
below. -/
def parse_file (g : Gate) (f : UploadIn) (external : Except String Unit) :
    List SyncEvent × Except Nat Unit × Gate :=
  if g.locked then
    ([.probe true, .httpError 503], .error 503, g)
  else
    let g1 := g.acquire
    if f.size > MAX_FILE_SIZE then
      ([.probe false, .acquirePermit, .readUpload f.size, .httpError 413, .releasePermit],
       .error 413, g1.release)
    else if ¬ f.suffixSupported then
      ([.probe false, .acquirePermit, .readUpload f.size, .typeCheck false,
        .httpError 400, .releasePermit],
       .error 400, g1.release)
    else
      match external with
      | .ok _ =>
          ([.probe false, .acquirePermit, .readUpload f.size, .typeCheck true,
            .callExternal, .releasePermit],
           .ok (), g1.release)
      | .error _ =>
          ([.probe false, .acquirePermit, .readUpload f.size, .typeCheck true,
            .callExternal, .httpError 500, .releasePermit],
           .error 500, g1.release)

/-- Program counter of one synchronous handler: before the `locked()` probe,
past the probe but not yet inside `async with _semaphore`, holding the
permit, rejected 503 at the probe, or finished (permit released). -/
inductive HPC where
  | start
  | passedProbe
  | holding
  | rejected
  | finished
deriving DecidableEq, Repr

/-- Two synchronous handlers interleaved on the shared semaphore. -/
structure TwoSys where
  gate : Gate
  pc1 : HPC
  pc2 : HPC
deriving DecidableEq, Repr

/-- Interleaving semantics of two concurrent `parse_file` calls, each running
server.py lines 576-582: the `locked()` probe rejects 503 when the gate is
full and otherwise just falls through (no reservation), and the separate
`async with _semaphore` acquisition is enabled only while a permit is free —
a handler at `passedProbe` with the gate full has no enabled transition and
suspends inside `Semaphore.acquire()` until someone releases. -/
inductive SyncStep : TwoSys → TwoSys → Prop where
  | probeFull1 (s : TwoSys) : s.pc1 = .start → s.gate.locked = true →
      SyncStep s { s with pc1 := .rejected }
  | probeFree1 (s : TwoSys) : s.pc1 = .start → s.gate.locked = false →
      SyncStep s { s with pc1 := .passedProbe }
  | acquire1 (s : TwoSys) : s.pc1 = .passedProbe → s.gate.held < s.gate.capacity →
      SyncStep s { s with pc1 := .holding, gate := s.gate.acquire }
  | release1 (s : TwoSys) : s.pc1 = .holding →
      SyncStep s { s with pc1 := .finished, gate := s.gate.release }
  | probeFull2 (s : TwoSys) : s.pc2 = .start → s.gate.locked = true →
      SyncStep s { s with pc2 := .rejected }
  | probeFree2 (s : TwoSys) : s.pc2 = .start → s.gate.locked = false →
      SyncStep s { s with pc2 := .passedProbe }
  | acquire2 (s : TwoSys) : s.pc2 = .passedProbe → s.gate.held < s.gate.capacity →
      SyncStep s { s with pc2 := .holding, gate := s.gate.acquire }
  | release2 (s : TwoSys) : s.pc2 = .holding →
      SyncStep s { s with pc2 := .finished, gate := s.gate.release }

/-- Both handlers about to run, one permit configured, none held. -/
def sysInit : TwoSys :=
  { gate := { capacity := 1, held := 0 }, pc1 := .start, pc2 := .start }

/-- Handler 1 holds the only permit while handler 2 has passed the probe
(so it was not rejected) and is stuck before the acquisition. -/
def sysBlocked : TwoSys :=
  { gate := { capacity := 1, held := 1 }, pc1 := .holding, pc2 := .passedProbe }

/-- Observable steps of the `/parse_async` handler, in program order. -/
inductive AsyncEvent where
  | readUpload : Nat → AsyncEvent
  | httpError : Nat → AsyncEvent
  | createTask : AsyncEvent
  | scheduleJob : AsyncEvent
  | respond : TaskStatus → AsyncEvent
deriving DecidableEq, Repr

/-- `parse_async` (server.py lines 633-681): read the upload, reject 413 when
oversized, otherwise create the Pending task record, hand `background_parse`
to `background_tasks.add_task` (scheduled, never awaited), and respond with
the task id and status Pending.  The handler touches neither the semaphore
nor the sniffed file type: `f.suffixSupported` is not consulted. -/
def parse_async (s : Store) (f : UploadIn) (task_id : String) (now : Int) :
    List AsyncEvent × Except Nat (String × TaskStatus) × Store :=
  if f.size > MAX_FILE_SIZE then
    ([.readUpload f.size, .httpError 413], .error 413, s)
  else
    let s1 := (TaskStore.create s task_id now).2
    ([.readUpload f.size, .createTask, .scheduleJob, .respond .pending],
     .ok (task_id, .pending), s1)

/-- Characters removed by `.strip('"\'')` in `download_file`. -/
def isQuoteChar (c : Char) : Bool := c = '"' ∨ c = '\''

/-- Python `str.strip('"\'')`: drop those characters from both ends. -/
def stripQuotes (s : List Char) : List Char :=
  (((s.dropWhile isQuoteChar).reverse).dropWhile isQuoteChar).reverse

/-- The text after the first occurrence of `sep`, or `none` when `sep` (here
always non-empty) does not occur — the `"filename=" in cd` test. -/
def afterSub (sep : List Char) : List Char → Option (List Char)
  | [] => none
  | c :: cs =>
      if sep.isPrefixOf (c :: cs) then some ((c :: cs).drop sep.length)
      else afterSub sep cs

/-- The text up to (excluding) the next occurrence of `sep`. -/
def upToSub (sep : List Char) : List Char → List Char
  | [] => []
  | c :: cs =>
      if sep.isPrefixOf (c :: cs) then []
      else c :: upToSub sep cs

/-- Python `s.split(sep)[1]` guarded by `sep in s`: the text strictly between
the first occurrence of `sep` and the following one (or the end). -/
def splitIndex1 (sep s : List Char) : Option (List Char) :=
  (afterSub sep s).map (upToSub sep)

/-- Python `Path(p).name`: the last non-empty `/`-separated segment (empty
when there is none). -/
def pathName (p : List Char) : List Char :=
  (((p.splitOn '/').reverse).dropWhile (fun seg => seg = [])).headD []

/-- The filename inference of `download_file` (server.py lines 369-375): if
`"filename="` occurs in the Content-Disposition header (absent headers read
as `""`), take what follows its first occurrence — Python's
`cd.split("filename=")[1]` — and strip quotes; otherwise take the final path
segment of the URL with its query string removed (`url.split("?")[0]`),
falling back to `"document.pdf"` when that segment is empty. -/
def inferFilename (cdHeader : Option String) (url : String) : String :=
  let cd := cdHeader.getD ""
  match splitIndex1 "filename=".data cd.data with
  | some rest => ⟨stripQuotes rest⟩
  | none =>
      let name := pathName (url.data.takeWhile (fun c => c ≠ '?'))
      if name = [] then "document.pdf" else ⟨name⟩

/-- The remote's response as `download_file` observes it: HTTP status, body
length, and the optional Content-Disposition header. -/
structure HttpResponse where
  status : Nat
  bodyLen : Nat
  contentDisposition : Option String
deriving DecidableEq, Repr

/-- Observable steps of `download_file`, in program order. -/
inductive DlEvent where
  | statusCheck : Nat → DlEvent
  | readFull : Nat → DlEvent
  | sizeCheck : Nat → DlEvent
  | httpError : Nat → DlEvent
deriving DecidableEq, Repr

/-- `download_file` (server.py lines 348-377): reject 400 on a non-200
status before reading anything; otherwise `content = await response.read()`
materializes the entire body (`readFull`), only after which the length is
compared against `MAX_FILE_SIZE` (`sizeCheck`, rejecting 413); finally the
filename is the supplied one unless it is falsy (`None`/empty), in which
case it is inferred.  The returned pair stands for `(content, filename)`
with the content represented by its length. -/
def download_file (resp : HttpResponse) (url : String) (filename : Option String) :
    List DlEvent × Except Nat (Nat × String) :=
  if resp.status ≠ 200 then
    ([.statusCheck resp.status, .httpError 400], .error 400)
  else
    let n := resp.bodyLen
    if n > MAX_FILE_SIZE then
      ([.statusCheck resp.status, .readFull n, .sizeCheck n, .httpError 413], .error 413)
    else
      let fname :=
        match filename with
        | some f => if f = "" then inferFilename resp.contentDisposition url else f
        | none => inferFilename resp.contentDisposition url
      ([.statusCheck resp.status, .readFull n, .sizeCheck n], .ok (n, fname))

/-! ## Helper lemmas -/

/-- Keeping the elements on which `q` is false and then filtering for `q`
leaves nothing. -/
theorem filter_of_filter_not {α : Type} (q : α → Bool) (l : List α) :
    (l.filter (fun a => ! q a)).filter q = [] := by
  induction l with
  | nil => rfl
  | cons a l ih => by_cases h : q a <;> simp [List.filter_cons, h, ih]

/-- Filtering for the complement of `q` is idempotent. -/
theorem filter_not_idem {α : Type} (q : α → Bool) (l : List α) :
    (l.filter (fun a => ! q a)).filter (fun a => ! q a) = l.filter (fun a => ! q a) := by
  induction l with
  | nil => rfl
  | cons a l ih => by_cases h : q a <;> simp [List.filter_cons, h, ih]

/-! ## Claims -/

/-- C5: `cleanup_expired` removes exactly the records whose age `now −
created_at` exceeds the TTL — a record survives iff it was present and not
expired, so fresh records (terminal or not) are kept verbatim — and returns
the number removed; running it again on the result with the same clock and
TTL removes 0 and changes nothing. -/
theorem cleanup_expired_exact (s : Store) (now ttl : Int) :
    (∀ p, p ∈ (TaskStore.cleanup_expired s now ttl).1 ↔
        p ∈ s ∧ taskExpired now ttl p = false) ∧
    (TaskStore.cleanup_expired s now ttl).2 = (s.filter (taskExpired now ttl)).length ∧
    TaskStore.cleanup_expired (TaskStore.cleanup_expired s now ttl).1 now ttl =
      ((TaskStore.cleanup_expired s now ttl).1, 0) := by
  refine ⟨?_, rfl, ?_⟩
  · intro p
    simp [TaskStore.cleanup_expired, List.mem_filter]
  · simp only [TaskStore.cleanup_expired]
    rw [filter_not_idem, filter_of_filter_not]
    rfl

/-- C6: the result-path resolver is the claimed pure mapping: backend
`pipeline` resolves to `{root}/{stem}/{parse_method}`, any backend starting
with `vlm` to `{root}/{stem}/vlm`, every other backend to
`{root}/{stem}/hybrid_{parse_method}`; in particular the three example
inputs of the claim resolve to `/out/doc/auto`, `/out/doc/vlm` and
`/out/doc/hybrid_auto`. -/
theorem result_dir_spec :
    (∀ m stem root, result_dir "pipeline" m stem root = osJoin (osJoin root stem) m) ∧
    (∀ b m stem root, b ≠ "pipeline" → pyStartsWith b "vlm" = true →
        result_dir b m stem root = osJoin (osJoin root stem) "vlm") ∧
    (∀ b m stem root, b ≠ "pipeline" → pyStartsWith b "vlm" = false →
        result_dir b m stem root = osJoin (osJoin root stem) ("hybrid_" ++ m)) ∧
    result_dir "pipeline" "auto" "doc" "/out" = "/out/doc/auto" ∧
    result_dir "vlm-remote" "auto" "doc" "/out" = "/out/doc/vlm" ∧
    result_dir "hybrid-remote" "auto" "doc" "/out" = "/out/doc/hybrid_auto" := by
  refine ⟨?_, ?_, ?_, rfl, rfl, rfl⟩
  · intro m stem root
    simp [result_dir]
  · intro b m stem root h1 h2
    simp [result_dir, h1, h2]
  · intro b m stem root h1 h2
    simp [result_dir, h1, h2]

/-- C6 witness: the conditional parts of `result_dir_spec` discharged at the
claim's own example inputs. -/
theorem result_dir_spec_witness :
    result_dir "vlm-remote" "auto" "doc" "/out" = osJoin (osJoin "/out" "doc") "vlm" ∧
    result_dir "hybrid-remote" "auto" "doc" "/out" =
      osJoin (osJoin "/out" "doc") ("hybrid_" ++ "auto") :=
  ⟨result_dir_spec.2.1 "vlm-remote" "auto" "doc" "/out" (by decide) (by decide),
   result_dir_spec.2.2.1 "hybrid-remote" "auto" "doc" "/out" (by decide) (by decide)⟩

/-- C9: `TaskStore.update` on a task id absent from the store returns the
Not-Found outcome (`none`) and leaves the store exactly as it was: no record
is created for the unknown id and no existing record is modified. -/
theorem update_absent (s : Store) (task_id : String) (u : TaskUpdate) (now : Int)
    (h : Store.lookup? s task_id = none) :
    TaskStore.update s task_id u now = (none, s) := by
  have hf : s.find? (fun p => p.1 = task_id) = none := by
    unfold Store.lookup? at h
    cases hx : s.find? (fun p => p.1 = task_id) <;> simp [hx] at h ⊢
  unfold TaskStore.update
  rw [hf]

/-- C9 witness: `update_absent` applied to a concrete one-record store and an
id it does not contain. -/
theorem update_absent_witness :
    TaskStore.update [("a", (TaskStore.create [] "a" 0).1)] "b"
      { status := some .failed } 7 =
      (none, [("a", (TaskStore.create [] "a" 0).1)]) :=
  update_absent [("a", (TaskStore.create [] "a" 0).1)] "b" { status := some .failed } 7
    (by simp [Store.lookup?, TaskStore.create, List.find?])

/-- C4: `background_parse`, run on the store holding its freshly created
task, never itself raises (its result is `.ok` for every outcome of the
try-block): on parser success the task ends Completed with progress 1.0 and
the structured result, and on an exception — whether it struck at the
semaphore acquisition or inside the parse — the task ends Failed with the
captured message; in all three cases the gate comes back exactly as it was,
so every reserved permit was released. -/
theorem background_parse_total (g : Gate) (task_id : String) (r : ParseResponse)
    (msg : String) (t0 t1 t2 t3 t4 : Int) :
    background_parse g (TaskStore.create [] task_id t0).2 task_id (.ok r) t1 t2 t3 t4 =
      .ok ([(task_id,
        { status := .completed, progress := 1, result := some r, error := none
          created_at := t0, updated_at := t3 })], g) ∧
    background_parse g (TaskStore.create [] task_id t0).2 task_id (.acquireFail msg)
        t1 t2 t3 t4 =
      .ok ([(task_id,
        { status := .failed, progress := 0.1, result := none, error := some msg
          created_at := t0, updated_at := t4 })], g) ∧
    background_parse g (TaskStore.create [] task_id t0).2 task_id (.parseFail msg)
        t1 t2 t3 t4 =
      .ok ([(task_id,
        { status := .failed, progress := 0.3, result := none, error := some msg
          created_at := t0, updated_at := t4 })], g) := by
  refine ⟨?_, ?_, ?_⟩ <;>
    simp [background_parse, background_try, TaskStore.create, TaskStore.update,
      applyUpdate, Gate.acquire, Gate.release, List.find?]

/-- C10: the Failed update of `background_parse` passes only `status` and
`error`, so merging it changes nothing but `status`, `error` and
`updated_at`; consequently a task failed by the background job keeps its
last pre-failure progress — 0.1 when the exception struck at the semaphore
acquisition (before admission), 0.3 when it struck inside the parse (after
admission) — its `result` stays absent, and its progress is never 1.0, so a
terminal Failed task polls with progress strictly below 1. -/
theorem background_failed_frame :
    (∀ (t : TaskRecord) (msg : String) (now : Int),
      applyUpdate t { status := some .failed, error := some msg } now =
        { t with status := .failed, error := some msg, updated_at := now }) ∧
    (∀ (g : Gate) (task_id msg : String) (t0 t1 t2 t3 t4 : Int),
      ∃ p1 p2 : Rat,
        background_parse g (TaskStore.create [] task_id t0).2 task_id (.acquireFail msg)
            t1 t2 t3 t4 =
          .ok ([(task_id,
            { status := .failed, progress := p1, result := none, error := some msg
              created_at := t0, updated_at := t4 })], g) ∧
        background_parse g (TaskStore.create [] task_id t0).2 task_id (.parseFail msg)
            t1 t2 t3 t4 =
          .ok ([(task_id,
            { status := .failed, progress := p2, result := none, error := some msg
              created_at := t0, updated_at := t4 })], g) ∧
        p1 = 0.1 ∧ p2 = 0.3 ∧ p1 < 1 ∧ p2 < 1) := by
  constructor
  · intro t msg now
    rfl
  · intro g task_id msg t0 t1 t2 t3 t4
    refine ⟨0.1, 0.3, ?_, ?_, rfl, rfl, by norm_num, by norm_num⟩ <;>
      simp [background_parse, background_try, TaskStore.create, TaskStore.update,
        applyUpdate, Gate.acquire, Gate.release, List.find?]

/-- C3: along the complete sequence of store operations the router and the
background job perform on a task — the create, then the updates of
`background_parse`, for every outcome of its try-block — the task's status
moves only along the strict forward path Pending → Processing →
{Completed, Failed} (in particular no state reached from Completed or
Failed ever shows another status), and at every intermediate store state the
record's `result` and `error` are mutually exclusive and both absent while
the status is non-terminal. -/
theorem task_lifecycle_forward (outcome : ParseOutcome) (task_id : String)
    (time : Nat → Int) :
    List.Chain' statusStep
      (((opStates task_id time 0 [] (asyncTaskOps outcome)).filterMap
        (fun s => Store.lookup? s task_id)).map TaskRecord.status) ∧
    ∀ s ∈ opStates task_id time 0 [] (asyncTaskOps outcome),
      ∀ t, Store.lookup? s task_id = some t → recordInv t := by
  cases outcome <;>
    simp [opStates, asyncTaskOps, applyOp, TaskStore.create, TaskStore.update,
      Store.lookup?, applyUpdate, statusStep, recordInv, List.find?]

/-- C1 (failing behavior): the synchronous handlers do not perform the
capacity check and the permit reservation as one atomic step — server.py
lines 576-582 are a `locked()` probe followed by a separate blocking
`async with _semaphore` — and a synchronous caller can block waiting for a
permit: with one configured permit and two concurrent requests, both pass
the probe (so neither receives the capacity-exceeded error), handler 1 then
takes the only permit, and the reachable state `sysBlocked` has handler 2
past the probe with the gate full and no enabled transition of its own —
it is suspended inside the semaphore acquisition until a release. -/
theorem sync_probe_then_block :
    Relation.ReflTransGen SyncStep sysInit sysBlocked ∧
    sysBlocked.pc2 = .passedProbe ∧
    sysBlocked.gate.locked = true ∧
    (∀ s', SyncStep sysBlocked s' → s'.pc2 = HPC.passedProbe) := by
  refine ⟨?_, rfl, rfl, ?_⟩
  · have h1 : SyncStep sysInit
        { gate := { capacity := 1, held := 0 }, pc1 := .passedProbe, pc2 := .start } :=
      SyncStep.probeFree1 sysInit rfl rfl
    have h2 : SyncStep
        { gate := { capacity := 1, held := 0 }, pc1 := .passedProbe, pc2 := .start }
        { gate := { capacity := 1, held := 0 }, pc1 := .passedProbe, pc2 := .passedProbe } :=
      SyncStep.probeFree2 _ rfl rfl
    have h3 : SyncStep
        { gate := { capacity := 1, held := 0 }, pc1 := .passedProbe, pc2 := .passedProbe }
        sysBlocked :=
      SyncStep.acquire1 _ rfl (by decide)
    exact .head h1 (.head h2 (.single h3))
  · intro s' h
    cases h <;> simp_all [sysBlocked, Gate.locked, Gate.acquire, Gate.release]

/-- C2 counterexample: an upload one byte over the limit, arriving at an
idle gate of capacity 2, is rejected 413 only after the handler has entered
`async with _semaphore` — the permit acquisition strictly precedes the
PayloadTooLarge rejection in the handler's own event order, so the handler
does acquire (and holds) a permit while rejecting the oversized payload. -/
theorem parse_file_oversize_holds_permit :
    (parse_file { capacity := 2, held := 0 }
        { size := MAX_FILE_SIZE + 1, suffixSupported := true } (.ok ())).1 =
      [.probe false, .acquirePermit, .readUpload (MAX_FILE_SIZE + 1), .httpError 413,
       .releasePermit] ∧
    (parse_file { capacity := 2, held := 0 }
        { size := MAX_FILE_SIZE + 1, suffixSupported := true } (.ok ())).2.1 =
      .error 413 ∧
    List.indexOf SyncEvent.acquirePermit
        (parse_file { capacity := 2, held := 0 }
          { size := MAX_FILE_SIZE + 1, suffixSupported := true } (.ok ())).1 <
      List.indexOf (SyncEvent.httpError 413)
        (parse_file { capacity := 2, held := 0 }
          { size := MAX_FILE_SIZE + 1, suffixSupported := true } (.ok ())).1 := by
  refine ⟨rfl, rfl, by decide⟩

/-- C2 amended: in `parse_file` the oversized-payload rejection comes after
admission, not before it — when the gate is not full at the probe, the
handler acquires a permit, reads the upload, and only then raises
PayloadTooLarge while still holding the permit, which is released as the
exception unwinds the `async with` (the gate ends balanced); only the
capacity-exceeded 503 path rejects without touching the gate. -/
theorem parse_file_oversize_after_admission (g : Gate) (f : UploadIn)
    (ext : Except String Unit) (hg : g.locked = false) (hf : f.size > MAX_FILE_SIZE) :
    parse_file g f ext =
      ([.probe false, .acquirePermit, .readUpload f.size, .httpError 413, .releasePermit],
       .error 413, g.acquire.release) ∧
    g.acquire.release = g := by
  constructor
  · simp [parse_file, hg, hf]
  · cases g
    simp [Gate.acquire, Gate.release]

/-- C2 witness: `parse_file_oversize_after_admission` at an idle two-permit
gate and an upload one byte over the limit. -/
theorem parse_file_oversize_after_admission_witness :
    parse_file { capacity := 2, held := 0 }
        { size := MAX_FILE_SIZE + 1, suffixSupported := true } (.ok ()) =
      ([.probe false, .acquirePermit, .readUpload (MAX_FILE_SIZE + 1), .httpError 413,
        .releasePermit],
       .error 413,
       (Gate.acquire { capacity := 2, held := 0 }).release) :=
  (parse_file_oversize_after_admission { capacity := 2, held := 0 }
    { size := MAX_FILE_SIZE + 1, suffixSupported := true } (.ok ()) rfl (by decide)).1

/-- C7 counterexample: a small upload whose sniffed suffix is unsupported —
the inline type check of `process_file_bytes` (embedded in `parse_file`)
rejects exactly this file with 400 — is nevertheless accepted by
`parse_async`, which responds with a task id and status Pending and never
raises: file-type validation does not happen synchronously in the async
request handler before the HTTP response. -/
theorem parse_async_skips_type_check :
    parse_async [] { size := 10, suffixSupported := false } "t1" 0 =
      ([.readUpload 10, .createTask, .scheduleJob, .respond .pending],
       .ok ("t1", .pending),
       [("t1", { status := .pending, progress := 0, result := none, error := none
                 created_at := 0, updated_at := 0 })]) ∧
    (parse_file { capacity := 2, held := 0 }
        { size := 10, suffixSupported := false } (.ok ())).2.1 = .error 400 := by
  refine ⟨?_, rfl⟩
  simp [parse_async, TaskStore.create, MAX_FILE_SIZE]

/-- C7 amended: `parse_async` validates only the payload size synchronously
(an oversized upload is rejected 413 with the store untouched and no task
created); within the limit it creates a Pending task record, schedules the
background job (`scheduleJob`, never awaited — no admission or parse event
appears in the handler trace), and responds with the task id and status
Pending; the sniffed file type is never consulted by the handler — type
validation is deferred to the background job. -/
theorem parse_async_spec (s : Store) (f : UploadIn) (task_id : String) (now : Int) :
    (f.size > MAX_FILE_SIZE →
      parse_async s f task_id now =
        ([.readUpload f.size, .httpError 413], .error 413, s)) ∧
    (f.size ≤ MAX_FILE_SIZE →
      parse_async s f task_id now =
        ([.readUpload f.size, .createTask, .scheduleJob, .respond .pending],
         .ok (task_id, .pending), (TaskStore.create s task_id now).2) ∧
      Store.lookup? (TaskStore.create s task_id now).2 task_id =
        some { status := .pending, progress := 0, result := none, error := none
               created_at := now, updated_at := now }) ∧
    (∀ b : Bool,
      parse_async s { size := f.size, suffixSupported := b } task_id now =
        parse_async s f task_id now) := by
  refine ⟨?_, ?_, ?_⟩
  · intro h
    simp [parse_async, h]
  · intro h
    constructor
    · simp [parse_async, Nat.not_lt.mpr h]
    · simp [Store.lookup?, TaskStore.create, List.find?]
  · intro b
    simp [parse_async]

/-- C7 witness: `parse_async_spec` at an empty store and a 5-byte upload,
its hypotheses discharged concretely. -/
theorem parse_async_spec_witness :
    parse_async [] { size := 5, suffixSupported := true } "t1" 3 =
      ([.readUpload 5, .createTask, .scheduleJob, .respond .pending],
       .ok ("t1", .pending), (TaskStore.create [] "t1" 3).2) :=
  ((parse_async_spec [] { size := 5, suffixSupported := true } "t1" 3).2.1
    (by decide)).1

/-- C8 counterexample: for a 200 response whose body is one byte over the
limit, `download_file` emits `readFull` of the entire body strictly before
the PayloadTooLarge rejection — the maximum payload size is enforced only
after full materialization in memory, not before any buffering completes. -/
theorem download_size_checked_after_read :
    download_file
        { status := 200, bodyLen := MAX_FILE_SIZE + 1, contentDisposition := none }
        "http://h/a.pdf" none =
      ([.statusCheck 200, .readFull (MAX_FILE_SIZE + 1), .sizeCheck (MAX_FILE_SIZE + 1),
        .httpError 413], .error 413) ∧
    List.indexOf (DlEvent.readFull (MAX_FILE_SIZE + 1))
        (download_file
          { status := 200, bodyLen := MAX_FILE_SIZE + 1, contentDisposition := none }
          "http://h/a.pdf" none).1 <
      List.indexOf (DlEvent.httpError 413)
        (download_file
          { status := 200, bodyLen := MAX_FILE_SIZE + 1, contentDisposition := none }
          "http://h/a.pdf" none).1 := by
  refine ⟨rfl, by decide⟩

/-- C8 amended: URL ingestion signals failure on a non-success status before
reading any bytes (the 400 trace contains no read, so no bytes pass
downstream); the maximum payload size is enforced only after the body has
been fully read into memory (the oversized trace reads the whole body, then
rejects 413); and when no filename is supplied one is inferred from the
Content-Disposition header, falling back to the URL's final path segment
(query string removed), and to `"document.pdf"` when that segment is empty
— as the three concrete inferences show. -/
theorem download_file_spec (resp : HttpResponse) (url : String)
    (filename : Option String) :
    (resp.status ≠ 200 →
      download_file resp url filename =
        ([.statusCheck resp.status, .httpError 400], .error 400)) ∧
    (resp.status = 200 → resp.bodyLen > MAX_FILE_SIZE →
      download_file resp url filename =
        ([.statusCheck 200, .readFull resp.bodyLen, .sizeCheck resp.bodyLen,
          .httpError 413], .error 413)) ∧
    (resp.status = 200 → resp.bodyLen ≤ MAX_FILE_SIZE → filename = none →
      download_file resp url filename =
        ([.statusCheck 200, .readFull resp.bodyLen, .sizeCheck resp.bodyLen],
         .ok (resp.bodyLen, inferFilename resp.contentDisposition url))) ∧
    inferFilename (some "attachment; filename=\"report.pdf\"") "http://h/x" =
      "report.pdf" ∧
    inferFilename none "http://h/docs/a.pdf?sig=1" = "a.pdf" ∧
    inferFilename none "?q" = "document.pdf" := by
  refine ⟨?_, ?_, ?_, by decide, by decide, by decide⟩
  · intro h
    simp [download_file, h]
  · intro h hn
    simp [download_file, h, hn]
  · intro h hn hf
    subst hf
    simp [download_file, h, Nat.not_lt.mpr hn]

/-- C8 witness: `download_file_spec`'s three conditional branches discharged
at concrete responses. -/
theorem download_file_spec_witness :
    download_file { status := 404, bodyLen := 0, contentDisposition := none }
        "http://h/a.pdf" none = ([.statusCheck 404, .httpError 400], .error 400) ∧
    download_file { status := 200, bodyLen := 7, contentDisposition := none }
        "http://h/a.pdf" none =
      ([.statusCheck 200, .readFull 7, .sizeCheck 7],
       .ok (7, inferFilename none "http://h/a.pdf")) :=
  ⟨(download_file_spec { status := 404, bodyLen := 0, contentDisposition := none }
      "http://h/a.pdf" none).1 (by decide),
   (download_file_spec { status := 200, bodyLen := 7, contentDisposition := none }
      "http://h/a.pdf" none).2.2.1 rfl (by decide) rfl⟩

/-- C1 witness: the no-own-transition part of `sync_probe_then_block`
applied to the one step actually enabled at the blocked state, handler 1's
release. -/
theorem sync_probe_then_block_witness :
    ({ sysBlocked with pc1 := HPC.finished, gate := sysBlocked.gate.release } : TwoSys).pc2 =
      HPC.passedProbe :=
  sync_probe_then_block.2.2.2 _ (SyncStep.release1 sysBlocked rfl)

/-- C3 witness: `task_lifecycle_forward` applied to the acquire-failure
outcome at concrete times, instantiated at the final store state to yield
the record invariant of the terminal Failed record. -/
theorem task_lifecycle_forward_witness :
    recordInv { status := .failed, progress := 0.1, result := none, error := some "m"
                created_at := 0, updated_at := 2 } :=
  (task_lifecycle_forward (.acquireFail "m") "t" (fun i => (i : Int))).2
    [("t", { status := .failed, progress := 0.1, result := none, error := some "m"
             created_at := 0, updated_at := 2 })]
    (by simp [opStates, asyncTaskOps, applyOp, TaskStore.create, TaskStore.update,
      applyUpdate, List.find?])
    { status := .failed, progress := 0.1, result := none, error := some "m"
      created_at := 0, updated_at := 2 }
    (by simp [Store.lookup?, List.find?])
